import Mathlib

/-!
Verification development for the LinkedIn engagement runner
(`PlaywrightRunner`, `src/unnamed/part_002`).

The JavaScript class is shallowly embedded: each method relevant to the
properties under study is translated into an executable Lean function.
External effects (the Playwright page, `fetch`, timers, the HTTP control
API) are made explicit as function parameters describing the observed
outcome of each effect, and wall-clock time is modelled with `Nat`
millisecond timestamps.  JavaScript `undefined`/missing values are
modelled with `Option`, and the JS falsiness of the empty string is
modelled explicitly where the source relies on it.
-/

namespace LinkedinParse

/-- Does `pat` occur at the head of `s`?  (Helper for the substring
test below; structurally recursive so that concrete instances reduce.) -/
def headMatches : List Char → List Char → Bool
  | _, [] => true
  | [], _ :: _ => false
  | c :: cs, d :: ds => c = d && headMatches cs ds

/-- Does `pat` occur anywhere inside `s`? -/
def subOccurs : List Char → List Char → Bool
  | [], pat => pat.isEmpty
  | c :: rest, pat => headMatches (c :: rest) pat || subOccurs rest pat

/-- Substring test embedding JavaScript `String.prototype.includes`. -/
def containsSub (s pat : String) : Bool :=
  subOccurs s.data pat.data

/-- ASCII lowercasing embedding JavaScript
`String.prototype.toLowerCase` on the verdict strings in play. -/
def lowerString (s : String) : String :=
  String.mk (s.data.map Char.toLower)

/-- Is the body blank?  Embeds the test
`!responseText || responseText.trim().length === 0`: the body is empty
or consists of whitespace only. -/
def isBlankBody (s : String) : Bool :=
  s.data.all (fun c => c.isWhitespace)

/-- JavaScript `a || d` for a possibly-missing string `a`: `undefined`
and the empty string are falsy, every other string is returned as-is. -/
def jsOrStr (a : Option String) (d : String) : String :=
  match a with
  | none => d
  | some s => if s = "" then d else s

/-- Truthiness of a possibly-missing string, as JavaScript sees it. -/
def jsTruthyStr (a : Option String) : Bool :=
  match a with
  | none => false
  | some s => s ≠ ""

/-! ## getThresholds (part_002 lines 1201-1225)

The configured `maxActions` reaches the clamp as the result of
JavaScript `parseInt`: `none` stands for `NaN` (non-numeric input),
`some n` for an integer result.  The method builds the returned object
`clamped` with the single field `maxActions`; the configured
`minLikes` / `minComments` / `minReposts` values are read into the
intermediate `thresholds` object but never copied into `clamped`. -/

/-- The object returned by `getThresholds`: its only field is
`maxActions`, mirroring the `clamped` object literal in the source. -/
structure ClampedThresholds where
  maxActions : Int
  deriving DecidableEq, Repr

/-- JavaScript `parseInt(x) || 10`: `NaN` and `0` are falsy and fall
through to the default `10`. -/
def jsParseIntOrTen (v : Option Int) : Int :=
  match v with
  | none => 10
  | some n => if n = 0 then 10 else n

/-- Embedding of `getThresholds` (lines 1201-1225): the configured
`maxActions` (after `parseInt`) is defaulted and clamped with
`Math.max(1, parseInt(thresholds.maxActions) || 10)`. -/
def getThresholds (configuredMaxActions : Option Int) : ClampedThresholds :=
  { maxActions := max 1 (jsParseIntOrTen configuredMaxActions) }

/-! ## Pause and the success-path cool-down (lines 1454-1463, 1594-1597)

The cool-down after a successful comment is a single
`await this.page.waitForTimeout(cooldown)`: a plain timer that resolves
`cooldown` milliseconds after it starts.  The `isPaused` flag set by
`pause()` (lines 596-603) is consulted only at the top of the main loop
(line 1457); no code between the start and the end of the cool-down
wait reads it.  A pause event is modelled as a pair
`(pauseAt, pauseDuration)` of millisecond timestamps. -/

/-- Wall-clock end of the success-path cool-down wait started at `t`
for `cooldown` milliseconds.  The list of pause events observed while
the wait is pending is a parameter precisely to record that the wait
does not consult it: `waitForTimeout` runs on the wall clock. -/
def successPathCooldownEnd (t cooldown : Nat) (_pauseEvents : List (Nat × Nat)) : Nat :=
  t + cooldown

/-- Milliseconds of the cool-down still to run at wall-clock time
`now`, for a cool-down started at `t` (truncated subtraction: `0` once
the timer has fired). -/
def remainingCooldownAt (t cooldown now : Nat) : Nat :=
  (t + cooldown) - now

/-! ## The advance-past-current-item loops (lines 1599-1617, 1629-1651)

After an act (successful or failed) the loop runs
`while (!foundNewPost) { press Tab; wait 300ms; checkPost = isInsidePost(); ... }`
where `foundNewPost` becomes true exactly when
`checkPost && checkPost.postId && checkPost.postId !== currentPostId`.
Neither `this.stopRequested` nor `this.keyboardLoopActive` appears in
the loop condition or body. -/

/-- A detected post: the (possibly empty) identifier and its markup. -/
structure PostData where
  postId : String
  postHTML : String
  deriving DecidableEq, Repr

/-- Exit test of one advance-loop iteration: the observation is inside
a post whose truthy identifier differs from `currentId`. -/
def advanceExit (obs : Option PostData) (currentId : String) : Bool :=
  match obs with
  | some p => p.postId ≠ "" && p.postId ≠ currentId
  | none => false

/-- The advance loop run over a stream of per-iteration observations.
`stopRequested` is the value of the cooperative stop flag during the
loop; it is a parameter precisely to record that the source loop never
reads it.  The result is the number of Tab presses until the loop
exits, or `none` when the loop is still running after consuming all
observations. -/
def advanceRun (stopRequested : Bool) (currentId : String) :
    List (Option PostData) → Option Nat
  | [] => none
  | o :: rest =>
    if advanceExit o currentId then some 1
    else (advanceRun stopRequested currentId rest).map (· + 1)

/-! ## executeWebhookRequest (lines 3150-3326)

A single outbound POST.  The outcome of the host `fetch` call is a
parameter: either the promise rejected with a JavaScript error, or a
response arrived carrying a status, a status text, the outcome of
`response.text()`, and — when the body text was obtained — the outcome
of `JSON.parse` on it.  Every throw site of the method is mapped to a
`WebhookFailure` value recording which site threw, the classification
the outer catch (lines 3286-3319) attached before re-throwing, and the
diagnostics captured along the way. -/

/-- A JavaScript error as the classifier sees it: `name`, `message`
(the empty string models a missing message), and `error.cause.code`. -/
structure JsError where
  name : String
  message : String
  causeCode : Option String
  deriving DecidableEq, Repr

/-- The `errorInfo.errorType` values assigned by the outer catch of
`executeWebhookRequest` (lines 3286-3319). -/
inductive ErrorType where
  | TIMEOUT
  | DNS_FAILURE
  | CONNECTION_REFUSED
  | CONNECTION_RESET
  | NETWORK_TIMEOUT
  | BROKEN_PIPE
  | SSL_ERROR
  | FETCH_FAILED
  | UNKNOWN
  deriving DecidableEq, Repr

/-- The classifier chain of the outer catch (lines 3287-3319),
translated branch by branch.  `errorInfo.errorType` starts as
`'UNKNOWN'` (line 3270) and keeps that value when no branch matches. -/
def classifyError (e : JsError) : ErrorType :=
  if e.name = "AbortError" then .TIMEOUT
  else if e.causeCode = some "ENOTFOUND" || containsSub e.message "ENOTFOUND"
       || containsSub e.message "getaddrinfo" then .DNS_FAILURE
  else if e.causeCode = some "ECONNREFUSED" || containsSub e.message "ECONNREFUSED" then
    .CONNECTION_REFUSED
  else if e.causeCode = some "ECONNRESET" || containsSub e.message "ECONNRESET"
       || containsSub e.message "socket hang up" then .CONNECTION_RESET
  else if e.causeCode = some "ETIMEDOUT" || containsSub e.message "ETIMEDOUT" then
    .NETWORK_TIMEOUT
  else if e.causeCode = some "EPIPE" || containsSub e.message "EPIPE" then .BROKEN_PIPE
  else if containsSub e.message "certificate" || containsSub e.message "SSL"
       || containsSub e.message "TLS" then .SSL_ERROR
  else if containsSub e.message "fetch failed" then .FETCH_FAILED
  else .UNKNOWN

/-- The decision-service response body after `JSON.parse`, restricted
to the keys the runner reads (lines 2184-2188): both casings of the
verdict and of the post identifier.  `none` models an absent key, and
`some ""` a present but falsy value. -/
structure JsonObj where
  engage : Option String
  Engage : Option String
  postId : Option String
  PostId : Option String
  deriving DecidableEq, Repr

/-- Diagnostics captured for a non-2xx response (lines 3206-3225):
status, status text, and the body text — read with `response.text()`
before the error is thrown, `none` when reading it failed. -/
structure HttpDiag where
  status : Nat
  statusText : String
  body : Option String
  deriving DecidableEq, Repr

/-- Which throw site of `executeWebhookRequest` produced the failure. -/
inductive FailSite where
  | payloadSerialization
  | fetchReject
  | httpStatus
  | bodyRead
  | emptyBody
  | malformedJson
  deriving DecidableEq, Repr

/-- A failure propagated out of `executeWebhookRequest`.  `classified`
is the `errorType` the outer catch logged before re-throwing; it is
`none` only for the payload-serialization throw at line 3178, which
happens before the classifying try block begins at line 3184. -/
structure WebhookFailure where
  site : FailSite
  message : String
  classified : Option ErrorType
  httpDiag : Option HttpDiag
  deriving DecidableEq, Repr

/-- The observed outcome of the host `fetch` call and of the host body
and JSON primitives on the arrived response. -/
inductive FetchOutcome where
  | serializeFailure (msg : String)
  | fetchError (e : JsError)
  | response (status : Nat) (statusText : String)
      (body : Except JsError String) (parsed : Option JsonObj)
  deriving Repr

/-- JavaScript `response.ok`: status in the 2xx range. -/
def responseOk (status : Nat) : Bool :=
  200 ≤ status && status < 300

/-- Embedding of `executeWebhookRequest` (lines 3150-3326).

* serialization failure (line 3178): thrown before the classifying try;
* fetch rejection: classified by the outer catch and re-thrown;
* non-2xx status (lines 3206-3228): the body text is read and captured
  into the diagnostics first, then an `Error` with message `HTTP status: statusText`
  is thrown, caught by the outer catch, classified and re-thrown;
* `response.text()` rejection on a 2xx response (line 3231): classified;
* empty or whitespace body (lines 3240-3243): error thrown, classified;
* `JSON.parse` failure (lines 3246-3260): error thrown, classified;
* otherwise the parsed object is returned. -/
def executeWebhookRequest (o : FetchOutcome) : Except WebhookFailure JsonObj :=
  match o with
  | .serializeFailure msg =>
    .error { site := .payloadSerialization
             message := "Payload serialization failed: " ++ msg
             classified := none, httpDiag := none }
  | .fetchError e =>
    .error { site := .fetchReject, message := e.message
             classified := some (classifyError e), httpDiag := none }
  | .response status statusText body parsed =>
    if responseOk status then
      match body with
      | .error e =>
        .error { site := .bodyRead, message := e.message
                 classified := some (classifyError e), httpDiag := none }
      | .ok txt =>
        if isBlankBody txt then
          .error { site := .emptyBody
                   message := "Webhook returned empty response body"
                   classified :=
                     some (classifyError
                       ⟨"Error", "Webhook returned empty response body", none⟩)
                   httpDiag := none }
        else
          match parsed with
          | some j => .ok j
          | none =>
            .error { site := .malformedJson
                     message := "Invalid JSON response"
                     classified :=
                       some (classifyError ⟨"Error", "Invalid JSON response", none⟩)
                     httpDiag := none }
    else
      let captured : Option String := body.toOption
      let msg := "HTTP " ++ toString status ++ ": " ++ statusText
      .error { site := .httpStatus, message := msg
               classified := some (classifyError ⟨"Error", msg, none⟩)
               httpDiag := some ⟨status, statusText, captured⟩ }

/-- Spec-side definition, for comparison with the code: the failure
kinds §4.6/§7 document for the Outbound Request Client.  A timeout of
either flavour, DNS failure, connection refused, connection reset and
TLS failure are classifier outputs; the documented malformed-response
and empty-response kinds correspond to the `malformedJson` and
`emptyBody` throw sites rather than to classifier outputs. -/
def documentedKind : ErrorType → Bool
  | .TIMEOUT => true
  | .NETWORK_TIMEOUT => true
  | .DNS_FAILURE => true
  | .CONNECTION_REFUSED => true
  | .CONNECTION_RESET => true
  | .SSL_ERROR => true
  | _ => false

/-! ## checkEngagementDecision (lines 2136-2232)

The decision-service client.  Its environment — whether a webhook is
configured, the cache entry for the post (with the current clock and
the 5000ms cache time-to-live from the constructor, line 30), and the
outcome of `executeWebhookRequest` when it is called — is passed
explicitly.  The method returns a normalized decision; the error catch
(lines 2210-2231) returns the fail-open `engage: 'yes'`. -/

/-- The normalized decision object (lines 2185-2188); the error and
no-webhook returns carry no `postId` field. -/
structure NormalizedDecision where
  engage : String
  postId : Option String
  deriving DecidableEq, Repr

/-- A cache entry of `_domCache` for an `engagement_` key. -/
structure CacheEntry where
  result : NormalizedDecision
  timestamp : Nat
  deriving DecidableEq, Repr

/-- Environment of one `checkEngagementDecision` call. -/
structure DecisionCtx where
  postAnalysisWebhook : Option String
  cached : Option CacheEntry
  now : Nat
  cacheTimeout : Nat
  deriving DecidableEq, Repr

/-- Normalization of the webhook verdict (line 2186):
`(result.engage || result.Engage || 'yes').toLowerCase()`. -/
def normalizeVerdict (r : JsonObj) : String :=
  lowerString (jsOrStr r.engage (jsOrStr r.Engage "yes"))

/-- Normalization of the returned post id (line 2187):
`result.postId || result.PostId || postData.postId`. -/
def normalizePostId (r : JsonObj) (postDataId : String) : String :=
  jsOrStr r.postId (jsOrStr r.PostId postDataId)

/-- Cache freshness test (line 2149):
`cached && Date.now() - cached.timestamp < this._cacheTimeout`. -/
def cacheHit (ctx : DecisionCtx) : Option NormalizedDecision :=
  match ctx.cached with
  | none => none
  | some c => if ctx.now - c.timestamp < ctx.cacheTimeout then some c.result else none

/-- Embedding of `checkEngagementDecision` (lines 2136-2232).
`outcome` is the result of the `executeWebhookRequest` call performed
when no webhook shortcut applies; the `_domCache.set` store of the
fresh result (lines 2196-2199) does not affect the returned value and
is elided. -/
def checkEngagementDecision (ctx : DecisionCtx) (postDataId : String)
    (outcome : Except WebhookFailure JsonObj) : NormalizedDecision :=
  if ¬ jsTruthyStr ctx.postAnalysisWebhook then { engage := "yes", postId := none }
  else
    match cacheHit ctx with
    | some cachedResult => cachedResult
    | none =>
      match outcome with
      | .error _ => { engage := "yes", postId := none }
      | .ok r =>
        { engage := normalizeVerdict r
          postId := some (normalizePostId r postDataId) }

/-! ## navigateToLinkedInWithRetries (lines 259-357)

`MAX_ATTEMPTS = 3`, `BACKOFF_DELAYS = [2000, 4000, 6000]`.  Each
attempt navigates, dismisses overlays, handles the login gate and runs
the readiness check; any throw or a false readiness result fails the
attempt.  On a failed attempt a screenshot and a mini-trace are each
captured inside their own try/catch and appended to `artifacts`, and —
except after the last attempt — the loop sleeps
`BACKOFF_DELAYS[attempt - 1]`.  The per-attempt outcome of the page
effects is a parameter; `path.resolve` on the already rooted artifact
paths is modelled as the identity. -/

/-- Observed outcome of the page effects during one attempt:
`gotoOk` covers `page.goto`, the overlay dismissal and the login wait
resolving; `ready` is the `waitForPageReadiness` result;
`screenshotOk` / `traceOk` say whether the two capture try blocks
succeeded. -/
structure AttemptEnv where
  gotoOk : Bool
  ready : Bool
  screenshotOk : Bool
  traceOk : Bool
  deriving DecidableEq, Repr

/-- One entry pushed onto `artifacts` (lines 317 and 336). -/
structure NavArtifact where
  type : String
  path : String
  attempt : Nat
  deriving DecidableEq, Repr

/-- The value returned by `navigateToLinkedInWithRetries`: the success
return (line 303) carries only `success: true`; the exhaustion return
(lines 352-356) carries the hint and the artifact list. -/
structure NavReturn where
  success : Bool
  hint : Option String
  artifacts : Option (List NavArtifact)
  deriving DecidableEq, Repr

/-- `BACKOFF_DELAYS` (line 263).  Only the first two entries are ever
indexed: the sleep happens only when `attempt < MAX_ATTEMPTS`. -/
def BACKOFF_DELAYS : List Nat := [2000, 4000, 6000]

/-- The hint string of the exhaustion return (line 354). -/
def navFailureHint : String :=
  "LinkedIn didn\x27t load after 3 attempts. Check login/connectivity and try again."

/-- Artifact entries appended by one failed attempt (lines 311-339):
a screenshot entry, then a trace entry, each only when its capture
try block succeeded. -/
def attemptArtifacts (runsDir : String) (e : AttemptEnv) (attempt : Nat) :
    List NavArtifact :=
  (if e.screenshotOk then
    [⟨"screenshot", runsDir ++ "/attempt-" ++ toString attempt ++ "-failure.png",
      attempt⟩]
   else [])
  ++ (if e.traceOk then
    [⟨"trace", runsDir ++ "/attempt-" ++ toString attempt ++ "-trace.zip", attempt⟩]
   else [])

/-- The attempt loop (lines 266-348), recursing over the list of
attempt numbers still to run (`for attempt = 1..MAX_ATTEMPTS`).  On a
failed attempt the captured artifacts are appended; when further
attempts remain (`attempt < MAX_ATTEMPTS`, line 342) the loop sleeps
`BACKOFF_DELAYS[attempt - 1]` and retries; otherwise the exhaustion
return (lines 352-356) is produced.  The second component of the
result is the list of backoff sleeps performed, in order. -/
def navLoop (runsDir : String) (env : Nat → AttemptEnv) :
    List Nat → List NavArtifact → NavReturn × List Nat
  | [], arts => ({ success := false, hint := some navFailureHint,
                   artifacts := some arts }, [])
  | attempt :: rest, arts =>
    let e := env attempt
    if e.gotoOk && e.ready then
      ({ success := true, hint := none, artifacts := none }, [])
    else
      let arts := arts ++ attemptArtifacts runsDir e attempt
      if rest.isEmpty then
        ({ success := false, hint := some navFailureHint, artifacts := some arts }, [])
      else
        let d := BACKOFF_DELAYS.getD (attempt - 1) 0
        let next := navLoop runsDir env rest arts
        (next.1, d :: next.2)

/-- Embedding of `navigateToLinkedInWithRetries` (lines 259-357):
run the attempt loop with `MAX_ATTEMPTS = 3`, attempts numbered 1 to 3. -/
def navigateToLinkedInWithRetries (runsDir : String) (env : Nat → AttemptEnv) :
    NavReturn × List Nat :=
  navLoop runsDir env [1, 2, 3] []

/-! ## The two stop() definitions (lines 499-570 and 2937-2961)

The class body of `PlaywrightRunner` defines `stop` twice.  In a
JavaScript class, a later method of the same name replaces the earlier
one on the prototype, so the definition at line 2937 is the one every
caller gets; the definition at line 499 is dead code.  Both are
embedded: `stop` is the effective method, `stopShadowed` the dead
first definition. -/

/-- `this.sessionStats` (constructor lines 42-49, `resetStats`
lines 1187-1196). -/
structure SessionStats where
  commentsPosted : Nat
  likesGiven : Nat
  connectionsRequested : Nat
  postsProcessed : Nat
  errors : Nat
  deriving DecidableEq, Repr

/-- The stats object written by `resetStats` (lines 1187-1196). -/
def initialSessionStats : SessionStats :=
  { commentsPosted := 0, likesGiven := 0, connectionsRequested := 0
    postsProcessed := 0, errors := 0 }

/-- The `artifactPaths` object of the first stop definition
(lines 509-513). -/
structure ArtifactPaths where
  traceFile : Option String
  videoFile : Option String
  sessionDir : Option String
  deriving DecidableEq, Repr

/-- The mutable runner fields the two stop definitions touch. -/
structure RunnerCore where
  isRunning : Bool
  keyboardLoopActive : Bool
  stopRequested : Bool
  isPaused : Bool
  sessionStats : SessionStats
  seenPostIds : List String
  sessionId : Option String
  deriving DecidableEq, Repr

/-- The object a stop definition returns.  `sessionId` and `artifacts`
are `none` when the returned object literal has no such field. -/
structure StopReturn where
  success : Bool
  message : String
  stats : SessionStats
  sessionId : Option String
  artifacts : Option ArtifactPaths
  deriving DecidableEq, Repr

/-- Embedding of the effective `stop` (lines 2937-2961): clears
`keyboardLoopActive`, runs `cleanup()` (which clears `isRunning`,
lines 1162-1182), snapshots the stats, runs `resetStats()`, clears
`seenPostIds`, and returns `success / message / stats` only.  It does
not touch `stopRequested` and captures no trace or video artifact. -/
def stop (s : RunnerCore) : RunnerCore × StopReturn :=
  let finalStats := s.sessionStats
  ({ s with keyboardLoopActive := false
            isRunning := false
            sessionStats := initialSessionStats
            seenPostIds := [] },
   { success := true, message := "Runner stopped", stats := finalStats
     sessionId := none, artifacts := none })

/-- Embedding of the dead first `stop` definition (lines 499-570),
shadowed by the one at line 2937.  `traceSaveOk` is whether the
`tracing.stop` try block succeeded, `videoFile` the `video-*.webm`
file found in the session directory, if any. -/
def stopShadowed (traceSaveOk : Bool) (videoFile : Option String)
    (s : RunnerCore) : RunnerCore × StopReturn :=
  let sessionDir := (s.sessionId.map (fun sid => "runs/" ++ sid))
  let tracePath := (s.sessionId.map (fun sid => "runs/" ++ sid ++ "/trace.zip"))
  let paths : ArtifactPaths :=
    { traceFile := if traceSaveOk then tracePath else none
      videoFile := videoFile.bind (fun v => sessionDir.map (fun d => d ++ "/" ++ v))
      sessionDir := if traceSaveOk then sessionDir else none }
  let finalStats := s.sessionStats
  ({ s with stopRequested := true
            keyboardLoopActive := false
            isRunning := false
            sessionStats := initialSessionStats },
   { success := true, message := "Runner stopped", stats := finalStats
     sessionId := s.sessionId, artifacts := some paths })

/-! ## The main automation loop of startKeyboardAutomation (lines 1397-1703)

The loop runs while `this.keyboardLoopActive && !this.stopRequested`.
Both flags are mutated only from outside the loop (by `stop()` and the
control API), so their observed values — together with the page
observations, the decision verdict and the act outcome — form the
per-iteration environment.  One iteration:

1. pause wait (lines 1456-1463): while paused, sleep in 1s ticks; then
   exit if the flags demand it (lines 1463, 1468);
2. press Tab and sleep the tab delay (lines 1474-1480), then exit if
   `stopRequested` was set during the delay (line 1483);
3. a thrown error is either a browser-closed error — the loop breaks
   (lines 1653-1661) — or recoverable: logged, iteration over
   (lines 1663-1664);
4. `isInsidePost` (line 1489): no post or falsy id — keep tabbing;
5. dedup (lines 1496-1504): an id in `seenPostIds` skips the iteration
   with no decide and no act; otherwise the id is added first;
6. optimize mode (lines 1526-1566): call `checkEngagementDecision`; a
   verdict other than `yes` skips the post with no act;
7. `engageWithPost` (line 1578): on success increment
   `commentsPosted`, log the remaining count against `maxActions`,
   sleep the cool-down, then run the advance loop; on failure run the
   advance loop directly.

`maxActions` (from `getThresholds`, line 1412) appears only in the HUD
and log output — never in an exit test.  The advance loop itself is
studied separately (`advanceRun`); here the environment supplies the
number of Tab presses it took. -/

/-- An error thrown inside one iteration body. -/
inductive IterError where
  | browserClosed
  | recoverable
  deriving DecidableEq, Repr

/-- Observable actions of one iteration, in order. -/
inductive LoopAction where
  | tab
  | waitPause
  | decideOn (postId : String)
  | actOn (postId : String)
  | hudRemaining (remaining : Int)
  | cooldown
  | advanceTab
  deriving DecidableEq, Repr

/-- Why the loop exited. -/
inductive ExitReason where
  | stopped
  | sessionClosed
  deriving DecidableEq, Repr

/-- The loop-owned mutable state: the Seen-Item Set and the acted-on
counter. -/
structure LoopState where
  seenPostIds : List String
  commentsPosted : Nat
  deriving DecidableEq, Repr

/-- State at loop entry: `seenPostIds.clear()` (line 1409) and
`commentsPosted = 0` (line 1416). -/
def initLoopState : LoopState := { seenPostIds := [], commentsPosted := 0 }

/-- Externally observed environment of one iteration. -/
structure IterEnv where
  activeAtTop : Bool
  stopAtTop : Bool
  pauseTicks : Nat
  stopAfterPause : Bool
  stopAfterDelay : Bool
  thrown : Option IterError
  post : Option PostData
  decisionEngage : String
  engageSuccess : Bool
  advanceTabs : Nat
  deriving DecidableEq, Repr

/-- One iteration of the main loop (lines 1454-1666), as described in
the section header.  Returns the new state, the actions of the
iteration, and `some reason` when the loop exits. -/
def loopStep (optimize : Bool) (maxActions : Nat) (s : LoopState) (env : IterEnv) :
    LoopState × List LoopAction × Option ExitReason :=
  if ¬ (env.activeAtTop && !env.stopAtTop) then (s, [], some .stopped)
  else
    let pauseActs := List.replicate env.pauseTicks LoopAction.waitPause
    if env.stopAfterPause then (s, pauseActs, some .stopped)
    else
      let acts := pauseActs ++ [LoopAction.tab]
      if env.stopAfterDelay then (s, acts, some .stopped)
      else
        match env.thrown with
        | some .browserClosed => (s, acts, some .sessionClosed)
        | some .recoverable => (s, acts, none)
        | none =>
          match env.post with
          | none => (s, acts, none)
          | some p =>
            if p.postId = "" then (s, acts, none)
            else if s.seenPostIds.contains p.postId then (s, acts, none)
            else
              let s := { s with seenPostIds := p.postId :: s.seenPostIds }
              if optimize && env.decisionEngage ≠ "yes" then
                (s, acts ++ [LoopAction.decideOn p.postId], none)
              else
                let acts := acts
                  ++ (if optimize then [LoopAction.decideOn p.postId] else [])
                  ++ [LoopAction.actOn p.postId]
                if env.engageSuccess then
                  ({ s with commentsPosted := s.commentsPosted + 1 },
                   acts
                     ++ [LoopAction.hudRemaining
                          ((maxActions : Int) - (s.commentsPosted + 1 : Nat))]
                     ++ [LoopAction.cooldown]
                     ++ List.replicate env.advanceTabs LoopAction.advanceTab,
                   none)
                else
                  (s, acts ++ List.replicate env.advanceTabs LoopAction.advanceTab,
                   none)

/-- The main loop run over a list of iteration environments: iterate
`loopStep` until it exits or the environments run out (`none` exit
means the loop is still running). -/
def runLoop (optimize : Bool) (maxActions : Nat) :
    LoopState → List IterEnv → LoopState × List LoopAction × Option ExitReason
  | s, [] => (s, [], none)
  | s, env :: rest =>
    match loopStep optimize maxActions s env with
    | (s1, acts, some r) => (s1, acts, some r)
    | (s1, acts, none) =>
      let next := runLoop optimize maxActions s1 rest
      (next.1, acts ++ next.2.1, next.2.2)

/-- Number of `decideOn id` actions in a trace. -/
def countDecide (acts : List LoopAction) (id : String) : Nat :=
  acts.countP (fun a => decide (a = LoopAction.decideOn id))

/-- Number of `actOn id` actions in a trace. -/
def countAct (acts : List LoopAction) (id : String) : Nat :=
  acts.countP (fun a => decide (a = LoopAction.actOn id))

/-- Actions that do not report progress against `maxActions`. -/
def isHudAction : LoopAction → Bool
  | LoopAction.hudRemaining _ => true
  | _ => false

/-! ## Theorems -/

/-- C10: `getThresholds` returns an object whose only field is
`maxActions` (the type `ClampedThresholds` mirrors the `clamped`
object literal of lines 1212-1214, which carries no `minLikes`,
`minComments` or `minReposts` field), and that `maxActions` is at
least 1 for every configured input: `none` (non-numeric, `parseInt`
gave `NaN`), zero, negative, or any other integer. -/
theorem getThresholds_only_clamped_maxActions (v : Option Int) :
    1 ≤ (getThresholds v).maxActions ∧
    getThresholds v = { maxActions := max 1 (jsParseIntOrTen v) } := by
  refine ⟨?_, rfl⟩
  exact le_max_left 1 (jsParseIntOrTen v)

/-- C8 counterexample: start a 5000ms cool-down at time 0, pause at
1000ms of elapsed cool-down, stay paused for 10000ms.  At the resume
instant (11000ms) the cool-down has 0ms remaining — the wait ran on
the wall clock during the pause — so the remaining cool-down is not
at least 3900ms as the claim requires. -/
theorem cooldown_pause_counterexample :
    remainingCooldownAt 0 5000 (1000 + 10000) = 0 ∧
    ¬ 3900 ≤ remainingCooldownAt 0 5000 (1000 + 10000) := by
  constructor <;> decide

/-- C8 amended: the success-path cool-down is a fixed wall-clock wait.
It ends at `t + cooldown` independent of any pause events, it is never
shortened (it always spans exactly `cooldown` milliseconds), and when
the pause outlasts the timer (`t + cooldown ≤ pauseAt + pauseDur`) the
remaining cool-down at the resume instant is 0: paused time is NOT
excluded from elapsed cool-down time. -/
theorem cooldown_wallclock (t cooldown : Nat)
    (evs evs2 : List (Nat × Nat)) :
    successPathCooldownEnd t cooldown evs = successPathCooldownEnd t cooldown evs2 ∧
    successPathCooldownEnd t cooldown evs - t = cooldown ∧
    (∀ pauseAt pauseDur : Nat, t + cooldown ≤ pauseAt + pauseDur →
      remainingCooldownAt t cooldown (pauseAt + pauseDur) = 0) := by
  refine ⟨rfl, by simp [successPathCooldownEnd], ?_⟩
  intro pauseAt pauseDur h
  simp only [remainingCooldownAt]
  omega

/-- Witness for `cooldown_wallclock` at the scenario of the claim:
cool-down 5000ms started at 0, paused at 1000ms, resumed 10000ms
later. -/
theorem cooldown_wallclock_witness :
    remainingCooldownAt 0 5000 (1000 + 10000) = 0 :=
  (cooldown_wallclock 0 5000 [(1000, 10000)] []).2.2 1000 10000 (by decide)

/-- C6 counterexample: with the stop flag set and a stream of
observations that never shows a new item boundary, the
advance-past-current-item loop is still running after every
observation — setting the stop flag does not terminate the advancing
phase, contrary to the claim. -/
theorem advance_stop_counterexample :
    advanceRun true "A" [none, none, none] = none := by
  decide

/-- Unfolding of one advance-loop iteration that does not exit. -/
theorem advanceRun_cons_noexit {b cur o rest} (h : advanceExit o cur = false) :
    advanceRun b cur (o :: rest) = (advanceRun b cur rest).map (· + 1) := by
  simp [advanceRun, h]

/-- Unfolding of one advance-loop iteration that exits. -/
theorem advanceRun_cons_exit {b cur o rest} (h : advanceExit o cur = true) :
    advanceRun b cur (o :: rest) = some 1 := by
  simp [advanceRun, h]

/-- C6 amended: the advance loops (lines 1604-1617 and 1634-1647)
repeatedly press Tab and exit exactly when an observation shows a
truthy item identifier different from the current one; their behaviour
is identical for both values of the stop flag, which the loop
condition never reads. -/
theorem advanceRun_exits_iff_new_boundary (b1 b2 : Bool) (cur : String)
    (obs : List (Option PostData)) :
    advanceRun b1 cur obs = advanceRun b2 cur obs ∧
    ((advanceRun b1 cur obs).isSome ↔ ∃ o ∈ obs, advanceExit o cur = true) := by
  induction obs with
  | nil => simp [advanceRun]
  | cons o rest ih =>
    by_cases h : advanceExit o cur = true
    · refine ⟨?_, ?_⟩
      · rw [advanceRun_cons_exit h, advanceRun_cons_exit h]
      · rw [advanceRun_cons_exit h]
        exact ⟨fun _ => ⟨o, List.mem_cons_self o rest, h⟩, fun _ => rfl⟩
    · have hb : advanceExit o cur = false := by
        cases hx : advanceExit o cur with
        | true => exact absurd hx h
        | false => rfl
      refine ⟨?_, ?_⟩
      · rw [advanceRun_cons_noexit hb, advanceRun_cons_noexit hb, ih.1]
      · rw [advanceRun_cons_noexit hb]
        have hmap : ((advanceRun b1 cur rest).map (· + 1)).isSome
            = (advanceRun b1 cur rest).isSome := by
          cases advanceRun b1 cur rest with
          | none => rfl
          | some n => rfl
        rw [hmap, ih.2]
        constructor
        · rintro ⟨x, hx, he⟩
          exact ⟨x, List.mem_cons_of_mem _ hx, he⟩
        · rintro ⟨x, hx, he⟩
          rcases List.mem_cons.mp hx with h1 | h2
          · subst h1; exact absurd he h
          · exact ⟨x, h2, he⟩

/-- C4 counterexample: a concrete running session (loop active, stop
flag clear).  The effective `stop()` — the second definition, line
2937, which shadows the first — leaves `stopRequested` false and
returns a result with no diagnostic artifact paths, contrary to the
claim. -/
theorem stop_counterexample :
    (stop { isRunning := true, keyboardLoopActive := true, stopRequested := false
            isPaused := false
            sessionStats := { commentsPosted := 3, likesGiven := 1
                              connectionsRequested := 0, postsProcessed := 5
                              errors := 0 }
            seenPostIds := ["a"], sessionId := some "sess" }).1.stopRequested = false ∧
    (stop { isRunning := true, keyboardLoopActive := true, stopRequested := false
            isPaused := false
            sessionStats := { commentsPosted := 3, likesGiven := 1
                              connectionsRequested := 0, postsProcessed := 5
                              errors := 0 }
            seenPostIds := ["a"], sessionId := some "sess" }).2.artifacts = none := by
  constructor <;> rfl

/-- C4 amended: every call to the effective `stop()` (the second,
overriding definition at lines 2937-2961) clears the loop-active flag
— cooperatively halting the automation loop — tears the session down
and returns the final statistics, but it does not set `stopRequested`,
does not finalize the trace or recording captures, and its result
carries no diagnostic artifact paths; only the shadowed first
definition (lines 499-570) did those. -/
theorem stop_effective_behavior (s : RunnerCore) :
    (stop s).1.keyboardLoopActive = false ∧
    (stop s).1.isRunning = false ∧
    (stop s).1.stopRequested = s.stopRequested ∧
    (stop s).2.success = true ∧
    (stop s).2.message = "Runner stopped" ∧
    (stop s).2.stats = s.sessionStats ∧
    (stop s).2.artifacts = none ∧
    (stop s).1.seenPostIds = [] ∧
    (stop s).1.sessionStats = initialSessionStats := by
  refine ⟨rfl, rfl, rfl, rfl, rfl, rfl, rfl, rfl, rfl⟩

/-- C5 counterexample: a fetch rejection whose error matches none of
the classifier branches (name not `AbortError`, no recognised cause
code or message fragment) propagates with the classification
`UNKNOWN`, which is not one of the documented failure kinds (timeout,
DNS failure, connection refused, connection reset, TLS failure,
malformed response, empty response). -/
theorem classify_unknown_counterexample :
    executeWebhookRequest (.fetchError ⟨"Error", "weird failure", none⟩) =
      .error { site := .fetchReject, message := "weird failure"
               classified := some .UNKNOWN, httpDiag := none } ∧
    documentedKind .UNKNOWN = false := by
  constructor <;> rfl

/-- C5 amended: `executeWebhookRequest` never throws on a non-2xx
response without first reading the response body text into the
captured diagnostics (the body text is present whenever
`response.text()` succeeded), and every failure thrown inside the
classifying try block — fetch rejection, non-2xx status, body-read
failure, empty body, malformed JSON — carries a classification from
the code taxonomy, with `UNKNOWN` as the fallback for unrecognised
failures; only the pre-fetch payload-serialization throw escapes
unclassified. -/
theorem executeWebhookRequest_diag_and_classify :
    (∀ (status : Nat) (statusText : String) (body : Except JsError String)
       (parsed : Option JsonObj), responseOk status = false →
      executeWebhookRequest (.response status statusText body parsed) =
        .error { site := .httpStatus
                 message := "HTTP " ++ toString status ++ ": " ++ statusText
                 classified := some (classifyError
                   ⟨"Error", "HTTP " ++ toString status ++ ": " ++ statusText, none⟩)
                 httpDiag := some ⟨status, statusText, body.toOption⟩ }) ∧
    (∀ e : JsError, executeWebhookRequest (.fetchError e) =
      .error { site := .fetchReject, message := e.message
               classified := some (classifyError e), httpDiag := none }) ∧
    (∀ (o : FetchOutcome) (f : WebhookFailure),
      (∀ msg, o ≠ .serializeFailure msg) →
      executeWebhookRequest o = .error f → f.classified.isSome = true) := by
  refine ⟨?_, fun e => rfl, ?_⟩
  · intro status statusText body parsed h
    simp [executeWebhookRequest, h]
  · intro o f hser hf
    cases o with
    | serializeFailure msg => exact absurd rfl (hser msg)
    | fetchError e =>
      unfold executeWebhookRequest at hf
      injection hf with h
      rw [← h]
      rfl
    | response status statusText body parsed =>
      by_cases hok : responseOk status = true
      · cases body with
        | error e =>
          simp [executeWebhookRequest, hok] at hf
          subst hf
          rfl
        | ok txt =>
          by_cases hempty : isBlankBody txt = true
          · simp [executeWebhookRequest, hok, hempty] at hf
            subst hf
            rfl
          · cases parsed with
            | some j => simp [executeWebhookRequest, hok, hempty] at hf
            | none =>
              simp [executeWebhookRequest, hok, hempty] at hf
              subst hf
              rfl
      · rw [Bool.not_eq_true] at hok
        simp [executeWebhookRequest, hok] at hf
        subst hf
        rfl

/-- Witness for `executeWebhookRequest_diag_and_classify`: a concrete
503 response whose body text was read; the captured diagnostics hold
the body, and the propagated failure is classified. -/
theorem executeWebhookRequest_diag_witness :
    executeWebhookRequest
        (.response 503 "Service Unavailable" (.ok "upstream down") none) =
      .error { site := .httpStatus
               message := "HTTP " ++ toString 503 ++ ": " ++ "Service Unavailable"
               classified := some (classifyError
                 ⟨"Error", "HTTP " ++ toString 503 ++ ": " ++ "Service Unavailable",
                  none⟩)
               httpDiag := some ⟨503, "Service Unavailable", some "upstream down"⟩ } :=
  executeWebhookRequest_diag_and_classify.1 503 "Service Unavailable"
    (.ok "upstream down") none (by decide)

/-- C1: whenever the decision-service call of optimize mode fails —
fetch rejection (timeout, network error), non-2xx status, empty body,
or malformed JSON, all of which surface as an `Except.error` from
`executeWebhookRequest` — and the short-lived cache has no fresh entry,
`checkEngagementDecision` returns the fail-open affirmative verdict
`engage: yes` (catch block, lines 2210-2231). -/
theorem checkEngagementDecision_fail_open (ctx : DecisionCtx) (pid : String)
    (f : WebhookFailure) (hmiss : cacheHit ctx = none) :
    (checkEngagementDecision ctx pid (.error f)).engage = "yes" := by
  by_cases hweb : jsTruthyStr ctx.postAnalysisWebhook = true
  · simp [checkEngagementDecision, hweb, hmiss]
  · simp [checkEngagementDecision, hweb]

/-- Witness for `checkEngagementDecision_fail_open`: a concrete
configured webhook, empty cache, and a timeout failure. -/
theorem checkEngagementDecision_fail_open_witness :
    (checkEngagementDecision
        { postAnalysisWebhook := some "https://n8n.example/webhook"
          cached := none, now := 0, cacheTimeout := 5000 }
        "post-1"
        (.error { site := .fetchReject, message := "This operation was aborted"
                  classified := some .TIMEOUT, httpDiag := none })).engage = "yes" :=
  checkEngagementDecision_fail_open
    { postAnalysisWebhook := some "https://n8n.example/webhook"
      cached := none, now := 0, cacheTimeout := 5000 }
    "post-1"
    { site := .fetchReject, message := "This operation was aborted"
      classified := some .TIMEOUT, httpDiag := none }
    rfl

/-- C9: with a configured webhook and no fresh cache entry, a response
object carrying neither an `engage` nor an `Engage` key (nor truthy
values for them) normalizes to the affirmative verdict `yes`; and a
present truthy verdict value is lowercased before the `=== yes`
comparison, making the yes/no test case-insensitive. -/
theorem checkEngagementDecision_normalizes (ctx : DecisionCtx) (pid : String)
    (hweb : jsTruthyStr ctx.postAnalysisWebhook = true)
    (hmiss : cacheHit ctx = none) :
    (∀ r : JsonObj, r.engage = none → r.Engage = none →
      (checkEngagementDecision ctx pid (.ok r)).engage = "yes") ∧
    (∀ (r : JsonObj) (s : String), r.engage = some s → s ≠ "" →
      (checkEngagementDecision ctx pid (.ok r)).engage = lowerString s ∧
      ((checkEngagementDecision ctx pid (.ok r)).engage = "yes" ↔
        lowerString s = "yes")) ∧
    (∀ (r : JsonObj) (s : String), jsTruthyStr r.engage = false → r.Engage = some s →
      s ≠ "" → (checkEngagementDecision ctx pid (.ok r)).engage = lowerString s) := by
  have hok : ∀ r : JsonObj, checkEngagementDecision ctx pid (.ok r) =
      { engage := normalizeVerdict r, postId := some (normalizePostId r pid) } := by
    intro r
    unfold checkEngagementDecision
    rw [if_neg (fun hc => hc hweb), hmiss]
  refine ⟨?_, ?_, ?_⟩
  · intro r h1 h2
    rw [hok r]
    simp only [normalizeVerdict, jsOrStr, h1, h2]
    decide
  · intro r s h1 h2
    have heng : (checkEngagementDecision ctx pid (.ok r)).engage = lowerString s := by
      rw [hok r]
      simp only [normalizeVerdict, jsOrStr, h1]
      rw [if_neg h2]
    exact ⟨heng, by rw [heng]⟩
  · intro r s h1 h2 h3
    cases hr : r.engage with
    | none =>
      rw [hok r]
      simp only [normalizeVerdict, jsOrStr, hr, h2]
      rw [if_neg h3]
    | some t =>
      have ht : t = "" := by
        by_contra hne
        rw [hr] at h1
        simp [jsTruthyStr, hne] at h1
      subst ht
      rw [hok r]
      simp only [normalizeVerdict, jsOrStr, hr, h2]
      rw [if_pos trivial, if_neg h3]

/-- Witness for `checkEngagementDecision_normalizes`: a concrete
response with verdict `YES` under the `Engage` casing normalizes to
`yes`, and one with no verdict keys defaults to `yes`. -/
theorem checkEngagementDecision_normalizes_witness :
    (checkEngagementDecision
        { postAnalysisWebhook := some "https://n8n.example/webhook"
          cached := none, now := 0, cacheTimeout := 5000 }
        "post-1"
        (.ok { engage := none, Engage := some "YES", postId := none
               PostId := none })).engage = "yes" ∧
    (checkEngagementDecision
        { postAnalysisWebhook := some "https://n8n.example/webhook"
          cached := none, now := 0, cacheTimeout := 5000 }
        "post-1"
        (.ok { engage := none, Engage := none, postId := none
               PostId := none })).engage = "yes" := by
  have h := checkEngagementDecision_normalizes
    { postAnalysisWebhook := some "https://n8n.example/webhook"
      cached := none, now := 0, cacheTimeout := 5000 }
    "post-1" (by decide) rfl
  refine ⟨?_, h.1 { engage := none, Engage := none, postId := none, PostId := none }
              rfl rfl⟩
  have h2 := h.2.2 { engage := none, Engage := some "YES", postId := none
                     PostId := none } "YES" rfl rfl (by decide)
  rw [h2]
  decide

/-- `List.contains` agrees with membership on `String` lists. -/
theorem string_contains_iff_mem (l : List String) (a : String) :
    l.contains a = true ↔ a ∈ l := by
  simp [List.contains_iff_exists_mem_beq]

/-- Shared facts about the fresh-identifier branches of one loop
iteration, phrased over the Seen-Item list, the detected identifier
and an arbitrary identifier. -/
theorem fresh_branch_facts (seen : List String) (pid id : String)
    (hcont : ¬ seen.contains pid = true) :
    (id ∈ seen → ¬ pid = id) ∧
    ((if pid = id then (1 : Nat) else 0) ≤ 1) ∧
    ((0 < if pid = id then (1 : Nat) else 0) → id = pid ∨ id ∈ seen) ∧
    (id ∈ seen → id = pid ∨ id ∈ seen) := by
  refine ⟨?_, ?_, ?_, ?_⟩
  · intro hmem heq
    exact hcont ((string_contains_iff_mem _ _).mpr (by rw [heq]; exact hmem))
  · split <;> simp
  · intro hpos
    split at hpos
    · rename_i heq
      exact Or.inl heq.symm
    · simp at hpos
  · intro hmem
    exact Or.inr hmem

/-- Per-iteration facts about the Seen-Item Set and the decide/act
actions: a seen identifier is never decided or acted on again, one
iteration decides and acts at most once, any decided or acted-on
identifier ends up in the set, and the set only grows. -/
theorem loopStep_spec (opt : Bool) (m : Nat) (s : LoopState) (env : IterEnv)
    (id : String) :
    (id ∈ s.seenPostIds →
      countDecide (loopStep opt m s env).2.1 id = 0 ∧
      countAct (loopStep opt m s env).2.1 id = 0) ∧
    countDecide (loopStep opt m s env).2.1 id ≤ 1 ∧
    countAct (loopStep opt m s env).2.1 id ≤ 1 ∧
    ((0 < countDecide (loopStep opt m s env).2.1 id ∨
      0 < countAct (loopStep opt m s env).2.1 id) →
        id ∈ (loopStep opt m s env).1.seenPostIds) ∧
    (id ∈ s.seenPostIds → id ∈ (loopStep opt m s env).1.seenPostIds) := by
  simp only [loopStep]
  repeat' split
  all_goals
    simp only [countDecide, countAct, List.countP_append, List.countP_cons,
      List.countP_replicate, List.countP_nil, List.countP_singleton]
  all_goals simp
  all_goals first
    | (rename_i hne hcont hskip heng hopt
       exact fresh_branch_facts _ _ _ hcont)
    | (rename_i hne hcont hdec
       exact fresh_branch_facts _ _ _ hcont)

/-- Run-level facts about the Seen-Item Set, by induction along the
environments: a seen identifier is never decided or acted on, any
identifier is decided and acted on at most once, a decided or acted-on
identifier ends up in the set, and the set only grows. -/
theorem runLoop_spec (opt : Bool) (m : Nat) (id : String) :
    ∀ (envs : List IterEnv) (s : LoopState),
    (id ∈ s.seenPostIds →
      countDecide (runLoop opt m s envs).2.1 id = 0 ∧
      countAct (runLoop opt m s envs).2.1 id = 0) ∧
    countDecide (runLoop opt m s envs).2.1 id ≤ 1 ∧
    countAct (runLoop opt m s envs).2.1 id ≤ 1 ∧
    ((0 < countDecide (runLoop opt m s envs).2.1 id ∨
      0 < countAct (runLoop opt m s envs).2.1 id) →
        id ∈ (runLoop opt m s envs).1.seenPostIds) ∧
    (id ∈ s.seenPostIds → id ∈ (runLoop opt m s envs).1.seenPostIds) := by
  intro envs
  induction envs with
  | nil =>
    intro s
    simp [runLoop, countDecide, countAct]
  | cons env rest ih =>
    intro s
    have hstep := loopStep_spec opt m s env id
    rcases hls : loopStep opt m s env with ⟨s1, acts, ex⟩
    rw [hls] at hstep
    simp only at hstep
    cases ex with
    | some r =>
      simp only [runLoop, hls]
      exact hstep
    | none =>
      have hrest := ih s1
      simp only [runLoop, hls]
      simp only [countDecide, countAct, List.countP_append] at hstep hrest ⊢
      obtain ⟨hseen0, hd1, ha1, hposmem, hmono⟩ := hstep
      obtain ⟨rseen0, rd1, ra1, rposmem, rmono⟩ := hrest
      by_cases hpos : 0 < (List.countP (fun a => decide (a = LoopAction.decideOn id)) acts) ∨
          0 < (List.countP (fun a => decide (a = LoopAction.actOn id)) acts)
      · have hmem1 := hposmem hpos
        have hzero := rseen0 hmem1
        refine ⟨?_, ?_, ?_, ?_, ?_⟩
        · intro hmem
          have h0 := hseen0 hmem
          omega
        · omega
        · omega
        · intro _
          exact rmono hmem1
        · intro hmem
          exact rmono (hmono hmem)
      · push_neg at hpos
        have hd0 : List.countP (fun a => decide (a = LoopAction.decideOn id)) acts = 0 := by
          omega
        have ha0 : List.countP (fun a => decide (a = LoopAction.actOn id)) acts = 0 := by
          omega
        refine ⟨?_, ?_, ?_, ?_, ?_⟩
        · intro hmem
          have hr0 := rseen0 (hmono hmem)
          omega
        · omega
        · omega
        · intro hp
          refine rposmem ?_
          omega
        · intro hmem
          exact rmono (hmono hmem)

/-- C2: in one automation session (the Seen-Item Set starts empty,
line 1409), any item identifier is decided on at most once and acted
on at most once across the whole run, however many times focus
revisits it; an identifier that was decided on or acted on is in the
Seen-Item Set afterwards (it is added at line 1504 before the decide
at line 1529 and the act at line 1578); and an iteration that detects
an identifier already in the set performs no decide and no act
(lines 1497-1500). -/
theorem seen_item_dedup (opt : Bool) (m : Nat) (envs : List IterEnv) (id : String) :
    countDecide (runLoop opt m initLoopState envs).2.1 id ≤ 1 ∧
    countAct (runLoop opt m initLoopState envs).2.1 id ≤ 1 ∧
    ((0 < countDecide (runLoop opt m initLoopState envs).2.1 id ∨
      0 < countAct (runLoop opt m initLoopState envs).2.1 id) →
        id ∈ (runLoop opt m initLoopState envs).1.seenPostIds) ∧
    (∀ (s : LoopState) (env : IterEnv), id ∈ s.seenPostIds →
      countDecide (loopStep opt m s env).2.1 id = 0 ∧
      countAct (loopStep opt m s env).2.1 id = 0) := by
  have h := runLoop_spec opt m id envs initLoopState
  exact ⟨h.2.1, h.2.2.1, h.2.2.2.1,
    fun s env hmem => (loopStep_spec opt m s env id).1 hmem⟩

/-- Witness for `seen_item_dedup`: a concrete session in optimize mode
whose focus lands on item `A` twice; `A` is decided on exactly once,
acted on exactly once, and ends up in the Seen-Item Set. -/
theorem seen_item_dedup_witness :
    countDecide (runLoop true 10 initLoopState
      [{ activeAtTop := true, stopAtTop := false, pauseTicks := 0
         stopAfterPause := false, stopAfterDelay := false, thrown := none
         post := some { postId := "A", postHTML := "<div/>" }
         decisionEngage := "yes", engageSuccess := true, advanceTabs := 2 },
       { activeAtTop := true, stopAtTop := false, pauseTicks := 0
         stopAfterPause := false, stopAfterDelay := false, thrown := none
         post := some { postId := "A", postHTML := "<div/>" }
         decisionEngage := "yes", engageSuccess := true, advanceTabs := 2 }]).2.1
      "A" ≤ 1 ∧
    "A" ∈ (runLoop true 10 initLoopState
      [{ activeAtTop := true, stopAtTop := false, pauseTicks := 0
         stopAfterPause := false, stopAfterDelay := false, thrown := none
         post := some { postId := "A", postHTML := "<div/>" }
         decisionEngage := "yes", engageSuccess := true, advanceTabs := 2 },
       { activeAtTop := true, stopAtTop := false, pauseTicks := 0
         stopAfterPause := false, stopAfterDelay := false, thrown := none
         post := some { postId := "A", postHTML := "<div/>" }
         decisionEngage := "yes", engageSuccess := true, advanceTabs := 2 }]).1.seenPostIds := by
  refine ⟨(seen_item_dedup true 10 _ "A").1, (seen_item_dedup true 10 _ "A").2.2.1 ?_⟩
  exact Or.inl (by decide)

/-- One iteration exits only on an observed stop flag or a
browser-closed error: under per-iteration conditions excluding both,
`loopStep` never reports an exit. -/
theorem loopStep_no_exit (opt : Bool) (m : Nat) (s : LoopState) (env : IterEnv)
    (h1 : env.activeAtTop = true) (h2 : env.stopAtTop = false)
    (h3 : env.stopAfterPause = false) (h4 : env.stopAfterDelay = false)
    (h5 : env.thrown ≠ some IterError.browserClosed) :
    (loopStep opt m s env).2.2 = none := by
  cases hth : env.thrown with
  | none =>
    simp only [loopStep, h1, h2, h3, h4, hth]
    repeat' split
    all_goals simp_all
  | some e =>
    cases e with
    | browserClosed => exact absurd hth h5
    | recoverable =>
      simp [loopStep, h1, h2, h3, h4, hth]

/-- The run exits only on an observed stop flag or a browser-closed
error. -/
theorem runLoop_keeps_running (opt : Bool) (m : Nat) :
    ∀ (envs : List IterEnv) (s : LoopState),
    (∀ e ∈ envs, e.activeAtTop = true ∧ e.stopAtTop = false ∧
      e.stopAfterPause = false ∧ e.stopAfterDelay = false ∧
      e.thrown ≠ some IterError.browserClosed) →
    (runLoop opt m s envs).2.2 = none := by
  intro envs
  induction envs with
  | nil =>
    intro s _
    simp [runLoop]
  | cons env rest ih =>
    intro s h
    have he := h env (List.mem_cons_self env rest)
    have hstep := loopStep_no_exit opt m s env he.1 he.2.1 he.2.2.1 he.2.2.2.1 he.2.2.2.2
    rcases hls : loopStep opt m s env with ⟨s1, acts, ex⟩
    rw [hls] at hstep
    simp only at hstep
    subst hstep
    simp only [runLoop, hls]
    exact ih s1 (fun e he2 => h e (List.mem_cons_of_mem _ he2))

/-- One iteration is insensitive to `maxActions` except in the HUD and
log output: the resulting state, the exit verdict and the trace with
the progress-report actions removed are identical for any two values. -/
theorem loopStep_maxActions_indep (opt : Bool) (m1 m2 : Nat) (s : LoopState)
    (env : IterEnv) :
    (loopStep opt m1 s env).1 = (loopStep opt m2 s env).1 ∧
    (loopStep opt m1 s env).2.2 = (loopStep opt m2 s env).2.2 ∧
    (loopStep opt m1 s env).2.1.filter (fun a => ! isHudAction a) =
      (loopStep opt m2 s env).2.1.filter (fun a => ! isHudAction a) := by
  simp only [loopStep]
  repeat' split
  all_goals simp [isHudAction, List.filter_append]

/-- Run-level version of `loopStep_maxActions_indep`. -/
theorem runLoop_maxActions_indep (opt : Bool) (m1 m2 : Nat) :
    ∀ (envs : List IterEnv) (s : LoopState),
    (runLoop opt m1 s envs).1 = (runLoop opt m2 s envs).1 ∧
    (runLoop opt m1 s envs).2.2 = (runLoop opt m2 s envs).2.2 ∧
    (runLoop opt m1 s envs).2.1.filter (fun a => ! isHudAction a) =
      (runLoop opt m2 s envs).2.1.filter (fun a => ! isHudAction a) := by
  intro envs
  induction envs with
  | nil =>
    intro s
    exact ⟨rfl, rfl, rfl⟩
  | cons env rest ih =>
    intro s
    have hstep := loopStep_maxActions_indep opt m1 m2 s env
    rcases hl1 : loopStep opt m1 s env with ⟨s1, acts1, ex1⟩
    rcases hl2 : loopStep opt m2 s env with ⟨s2, acts2, ex2⟩
    rw [hl1, hl2] at hstep
    simp only at hstep
    obtain ⟨hs, hex, hacts⟩ := hstep
    subst hs
    subst hex
    cases ex1 with
    | some r =>
      simp only [runLoop, hl1, hl2]
      exact ⟨by trivial, by trivial, hacts⟩
    | none =>
      have hrest := ih s1
      simp only [runLoop, hl1, hl2]
      refine ⟨hrest.1, hrest.2.1, ?_⟩
      simp only [List.filter_append, hacts, hrest.2.2]

/-- C7: the configured `maxActions` never terminates the automation
loop.  First, for every execution in which no stop flag is observed
and no session-closed (browser-closed) condition occurs, the loop is
still running after all iterations, even from a state whose acted-on
count already reached or exceeded `maxActions`.  Second, `maxActions`
affects only the reported HUD/log progress: the final state, the exit
verdict and the action trace without progress reports are identical
for any two `maxActions` values. -/
theorem maxActions_reporting_only :
    (∀ (opt : Bool) (m : Nat) (s : LoopState) (envs : List IterEnv),
      m ≤ s.commentsPosted →
      (∀ e ∈ envs, e.activeAtTop = true ∧ e.stopAtTop = false ∧
        e.stopAfterPause = false ∧ e.stopAfterDelay = false ∧
        e.thrown ≠ some IterError.browserClosed) →
      (runLoop opt m s envs).2.2 = none) ∧
    (∀ (opt : Bool) (m1 m2 : Nat) (s : LoopState) (envs : List IterEnv),
      (runLoop opt m1 s envs).1 = (runLoop opt m2 s envs).1 ∧
      (runLoop opt m1 s envs).2.2 = (runLoop opt m2 s envs).2.2 ∧
      (runLoop opt m1 s envs).2.1.filter (fun a => ! isHudAction a) =
        (runLoop opt m2 s envs).2.1.filter (fun a => ! isHudAction a)) :=
  ⟨fun opt m s envs _ h => runLoop_keeps_running opt m envs s h,
   fun opt m1 m2 s envs => runLoop_maxActions_indep opt m1 m2 envs s⟩

/-- Witness for `maxActions_reporting_only`: a concrete state whose
acted-on count (5) exceeds `maxActions` (1), and one further
successful iteration; the loop is still running afterwards. -/
theorem maxActions_reporting_only_witness :
    (runLoop false 1 { seenPostIds := [], commentsPosted := 5 }
      [{ activeAtTop := true, stopAtTop := false, pauseTicks := 0
         stopAfterPause := false, stopAfterDelay := false, thrown := none
         post := some { postId := "B", postHTML := "<div/>" }
         decisionEngage := "yes", engageSuccess := true, advanceTabs := 1 }]).2.2
      = none :=
  maxActions_reporting_only.1 false 1
    { seenPostIds := [], commentsPosted := 5 }
    [{ activeAtTop := true, stopAtTop := false, pauseTicks := 0
       stopAfterPause := false, stopAfterDelay := false, thrown := none
       post := some { postId := "B", postHTML := "<div/>" }
       decisionEngage := "yes", engageSuccess := true, advanceTabs := 1 }]
    (by decide) (by decide)

/-- C3 counterexample: with the readiness check failing on every
attempt and every capture succeeding, the navigation-retry state
machine returns a failure whose artifact list has 6 entries — a
screenshot and a mini-trace per attempt — not 3 as the claim states. -/
theorem nav_artifacts_counterexample :
    (((navigateToLinkedInWithRetries "runs"
        (fun _ => { gotoOk := true, ready := false
                    screenshotOk := true, traceOk := true })).1.artifacts.getD
        []).length = 6) ∧
    ¬ (((navigateToLinkedInWithRetries "runs"
        (fun _ => { gotoOk := true, ready := false
                    screenshotOk := true, traceOk := true })).1.artifacts.getD
        []).length = 3) := by
  constructor <;> decide

/-- C3 amended: if the page-readiness check fails on every attempt
(navigation and artifact capture succeeding), the state machine
performs exactly 3 attempts, sleeps the backoff delays 2000ms and
4000ms between attempts (none after the last; the 6000ms entry of
`BACKOFF_DELAYS` is never used), and returns a structured failure
carrying the human-readable hint and exactly 6 artifact entries — a
failure screenshot and a mini-trace for each of the 3 attempts. -/
theorem nav_retries_exhaustion (runsDir : String) (env : Nat → AttemptEnv)
    (h : ∀ n, (env n).gotoOk = true ∧ (env n).ready = false ∧
              (env n).screenshotOk = true ∧ (env n).traceOk = true) :
    navigateToLinkedInWithRetries runsDir env =
      ({ success := false, hint := some navFailureHint
         artifacts := some
           [{ type := "screenshot"
              path := runsDir ++ "/attempt-" ++ toString (1 : Nat) ++ "-failure.png"
              attempt := 1 },
            { type := "trace"
              path := runsDir ++ "/attempt-" ++ toString (1 : Nat) ++ "-trace.zip"
              attempt := 1 },
            { type := "screenshot"
              path := runsDir ++ "/attempt-" ++ toString (2 : Nat) ++ "-failure.png"
              attempt := 2 },
            { type := "trace"
              path := runsDir ++ "/attempt-" ++ toString (2 : Nat) ++ "-trace.zip"
              attempt := 2 },
            { type := "screenshot"
              path := runsDir ++ "/attempt-" ++ toString (3 : Nat) ++ "-failure.png"
              attempt := 3 },
            { type := "trace"
              path := runsDir ++ "/attempt-" ++ toString (3 : Nat) ++ "-trace.zip"
              attempt := 3 }] },
       [2000, 4000]) := by
  obtain ⟨g1, r1, s1, t1⟩ := h 1
  obtain ⟨g2, r2, s2, t2⟩ := h 2
  obtain ⟨g3, r3, s3, t3⟩ := h 3
  simp [navigateToLinkedInWithRetries, navLoop, attemptArtifacts, BACKOFF_DELAYS,
    g1, r1, s1, t1, g2, r2, s2, t2, g3, r3, s3, t3]

/-- Witness for `nav_retries_exhaustion` at a concrete run directory
and a stub environment whose readiness check always fails. -/
theorem nav_retries_exhaustion_witness :
    navigateToLinkedInWithRetries "runs"
        (fun _ => { gotoOk := true, ready := false
                    screenshotOk := true, traceOk := true }) =
      ({ success := false, hint := some navFailureHint
         artifacts := some
           [{ type := "screenshot"
              path := "runs" ++ "/attempt-" ++ toString (1 : Nat) ++ "-failure.png"
              attempt := 1 },
            { type := "trace"
              path := "runs" ++ "/attempt-" ++ toString (1 : Nat) ++ "-trace.zip"
              attempt := 1 },
            { type := "screenshot"
              path := "runs" ++ "/attempt-" ++ toString (2 : Nat) ++ "-failure.png"
              attempt := 2 },
            { type := "trace"
              path := "runs" ++ "/attempt-" ++ toString (2 : Nat) ++ "-trace.zip"
              attempt := 2 },
            { type := "screenshot"
              path := "runs" ++ "/attempt-" ++ toString (3 : Nat) ++ "-failure.png"
              attempt := 3 },
            { type := "trace"
              path := "runs" ++ "/attempt-" ++ toString (3 : Nat) ++ "-trace.zip"
              attempt := 3 }] },
       [2000, 4000]) :=
  nav_retries_exhaustion "runs" _ (fun _ => ⟨rfl, rfl, rfl, rfl⟩)

end LinkedinParse
